import Mathlib

/-!
# Verification of the pocketbase-typegen schema-to-TypeScript generator

Shallow embedding of the generator core found in `dist/index.js`
(functions `toPascalCase`, `sanitizeFieldName`, `pbSchemaTypescriptMap`,
`createTypeField`, `createRecordType`, `createCollectionEnum`,
`createCollectionRecord`, `generate`).

Modelling conventions:
* JavaScript strings are modelled by Lean `String`.  Character classes and
  case mappings (`\p{L}`, `\d`, `toUpperCase`, `toLowerCase`,
  `parseFloat`-digit detection) are modelled on the ASCII fragment, where
  Lean's `Char.isAlpha`, `Char.isDigit`, `Char.toUpper`, `Char.toLower`
  coincide with the JavaScript operations.
* A JavaScript value that may be `undefined`/`null` is an `Option`:
  truthiness tests on objects and arrays (`opts.values ? … : …`,
  `if (row.schema)`) test `Option.isSome`, because in JavaScript an array —
  even an empty one — and an object are truthy, while `undefined`/`null`
  are falsy.
* Thrown exceptions become `Except`: `unknownFieldType` models the
  `throw new Error("unknown type …")` in `createTypeField`, and `typeError`
  models the implicit `TypeError` raised when `opts.values` / `opts.maxSelect`
  is dereferenced with `opts === undefined`, or when an inherited
  `Object.prototype` method is called with strict-mode `this = undefined`.
* The guard `recordSchema.type in pbSchemaTypescriptMap` uses the JavaScript
  `in` operator, which consults the prototype chain: names of
  `Object.prototype` members (`toString`, `constructor`, `__proto__`, …)
  pass the guard even though they are not own keys of the rendering table.
  `objectPrototypeKeys` lists those names and `inheritedTypeString` captures
  what the subsequent lookup-and-dispatch does with each (this file is an
  ES module, hence strict mode and an undefined `this` in such calls).
* `Array.prototype.sort()` with the default comparator sorts by UTF-16
  code-unit lexicographic order (ECMA-262 `SortCompare`).  Since that order
  is antisymmetric on strings, any sorting algorithm produces the same
  output; we use `List.insertionSort` over the code-unit order.
-/

namespace PBTypegen

/-- A character matched by the JavaScript classes `[\p{L}\d]` of
`toPascalCase`, restricted to the ASCII fragment (see module docstring). -/
def isWordChar (c : Char) : Bool := c.isAlpha || c.isDigit

/-- One pass of `str.replace(/([\p{L}\d])([\p{L}\d]*)/giu, (g0,g1,g2) =>
g1.toUpperCase() + g2.toLowerCase())`: every maximal run of word characters
gets its first character upper-cased and the rest lower-cased; separators
are kept.  The boolean argument records whether we are inside a run. -/
def camelcaseRuns : Bool → List Char → List Char
  | _, [] => []
  | inRun, c :: cs =>
    if isWordChar c then
      (if inRun then c.toLower else c.toUpper) :: camelcaseRuns true cs
    else
      c :: camelcaseRuns false cs

/-- `toPascalCase` from `src/utils.ts`: if the whole (non-empty) string is
letters/digits (`/^[\p{L}\d]+$/iu`), upper-case just the first character and
keep the rest verbatim; otherwise transform each maximal letter/digit run
(first char up, rest down) and then strip every non-letter-non-digit
character (`.replace(/[^\p{L}\d]/giu, "")`). -/
def toPascalCase (str : String) : String :=
  match str.data with
  | [] => ⟨(camelcaseRuns false []).filter isWordChar⟩
  | c :: cs =>
    if (c :: cs).all isWordChar then ⟨c.toUpper :: cs⟩
    else ⟨(camelcaseRuns false (c :: cs)).filter isWordChar⟩

/-- `sanitizeFieldName` from `src/utils.ts`:
`!isNaN(parseFloat(name.charAt(0)))` holds exactly when the first character
is an ASCII digit (`parseFloat` of any single non-digit character, of the
empty string, and of non-ASCII numerals is `NaN`), in which case the whole
name is wrapped in double quotes. -/
def sanitizeFieldName (name : String) : String :=
  match name.data with
  | [] => name
  | c :: _ => if c.isDigit then "\"" ++ name ++ "\"" else name

/-- The option bag of a field (`recordSchema.options`): only `values` (for
`select`) and `maxSelect` (for `file`) are ever read.  An absent key is
`none`. -/
structure FieldOptions where
  values : Option (List String) := none
  maxSelect : Option Int := none
deriving Repr, DecidableEq

/-- A field of a collection (`recordSchema` in `createTypeField`). -/
structure FieldDescriptor where
  name : String := ""
  type : String := ""
  required : Bool := false
  options : Option FieldOptions := none
deriving Repr, DecidableEq

/-- A collection row as consumed by `generate`: `name` and, possibly absent
(`undefined`), the `schema` array of fields. -/
structure CollectionDescriptor where
  name : String := ""
  schema : Option (List FieldDescriptor) := none
deriving Repr, DecidableEq

/-- The two ways generation can fail: the explicit
`throw new Error("unknown type … found in schema")`, and a `TypeError` —
from a `select`/`file` entry dereferencing absent options, or from an
inherited `Object.prototype` method called with `this = undefined`. -/
inductive GenError where
  | unknownFieldType (t : String)
  | typeError
deriving Repr, DecidableEq

/-- The `select` entry of `pbSchemaTypescriptMap`:
`(opts) => opts.values ? opts.values.map((val) => `"${val}"`).join(" | ") : "string"`.
Note that in JavaScript an *empty array* is truthy, so present-but-empty
`values` takes the first branch and yields the empty join. -/
def selectTypeString (opts : FieldOptions) : String :=
  match opts.values with
  | some vs => String.intercalate " | " (vs.map (fun v => "\"" ++ v ++ "\""))
  | none => "string"

/-- The `file` entry of `pbSchemaTypescriptMap`:
`(opts) => opts.maxSelect && opts.maxSelect > 1 ? "string[]" : "string"`.
(`maxSelect = 0` is falsy but also not `> 1`, so the `Option`/comparison
split below agrees with JavaScript truthiness on every integer.) -/
def fileTypeString (opts : FieldOptions) : String :=
  match opts.maxSelect with
  | some n => if 1 < n then "string[]" else "string"
  | none => "string"

/-- An entry of the rendering table is either a constant type string or a
function of the field's options. -/
inductive TypeEntry where
  | const (s : String)
  | fromOptions (f : FieldOptions → String)

/-- The *own* properties of the object literal `pbSchemaTypescriptMap`
(eleven keys).  Note that the guard in `createTypeField` is the JavaScript
`in` operator, which also consults the prototype chain: see
`objectPrototypeKeys` and `inheritedTypeString` below. -/
def pbSchemaTypescriptMap (t : String) : Option TypeEntry :=
  if t = "text" then some (.const "string")
  else if t = "number" then some (.const "number")
  else if t = "bool" then some (.const "boolean")
  else if t = "email" then some (.const "string")
  else if t = "url" then some (.const "string")
  else if t = "date" then some (.const "string")
  else if t = "select" then some (.fromOptions selectTypeString)
  else if t = "json" then some (.const "null | unknown")
  else if t = "file" then some (.fromOptions fileTypeString)
  else if t = "relation" then some (.const "string")
  else if t = "user" then some (.const "string")
  else none

/-- The fixed set of known field types (the own keys of
`pbSchemaTypescriptMap`). -/
def knownFieldTypes : List String :=
  ["text", "number", "bool", "email", "url", "date", "select", "json", "file",
   "relation", "user"]

/-- The property names of `Object.prototype` (standard ones plus the Annex B
accessors, all present in Node).  The object literal `pbSchemaTypescriptMap`
inherits them, so `recordSchema.type in pbSchemaTypescriptMap` is *true* for
each of these names and the unknown-type throw is skipped. -/
def objectPrototypeKeys : List String :=
  ["constructor", "hasOwnProperty", "isPrototypeOf", "propertyIsEnumerable",
   "toLocaleString", "toString", "valueOf", "__proto__",
   "__defineGetter__", "__defineSetter__", "__lookupGetter__", "__lookupSetter__"]

/-- What `createTypeField` computes when `recordSchema.type` names an
inherited `Object.prototype` member: the `in` guard passes, the lookup
`pbSchemaTypescriptMap[recordSchema.type]` yields the inherited member, and
the `typeof … === "function"` dispatch either interpolates it or calls it —
in this ES module (strict mode) with `this = undefined` — on the options
value:
* `toString`: called, ignores its argument; with an undefined `this` it
  returns `"[object Undefined]"`;
* `constructor`: the `Object` function, called; `Object(options)` returns an
  object, which the template literal interpolates as `"[object Object]"`;
* `__proto__`: the Annex B accessor yields `Object.prototype`, an object and
  not a function, interpolated as `"[object Object]"`;
* `isPrototypeOf`: returns `false` (interpolated `"false"`) when its
  argument is not an object — i.e. when `options` is absent — and throws a
  `TypeError` from `ToObject(undefined)` when `options` is an object;
* every other member (`hasOwnProperty`, `propertyIsEnumerable`,
  `toLocaleString`, `valueOf` and the four `__defineGetter__`-family
  accessors) throws a `TypeError`, from `ToObject(this = undefined)` or from
  `Invoke(undefined, "toString")`. -/
def inheritedTypeString (t : String) (opts : Option FieldOptions) : Except GenError String :=
  if t = "toString" then .ok "[object Undefined]"
  else if t = "constructor" then .ok "[object Object]"
  else if t = "__proto__" then .ok "[object Object]"
  else if t = "isPrototypeOf" then
    match opts with
    | none => .ok "false"
    | some _ => .error .typeError
  else .error .typeError

/-- The member line template of `createTypeField`:
`\t${sanitizeFieldName(name)}${required ? "" : "?"}: ${typeString}\n`. -/
def memberLine (f : FieldDescriptor) (typeString : String) : String :=
  "\t" ++ sanitizeFieldName f.name ++ (if f.required then "" else "?") ++ ": "
    ++ typeString ++ "\n"

/-- `createTypeField`: the guard `if (!(recordSchema.type in
pbSchemaTypescriptMap)) throw …` passes when the type is an own key *or* an
inherited `Object.prototype` member name; only a type that is neither
throws `unknown type … found in schema`.  For an own functional entry,
absent options raise a `TypeError`; for an inherited member the outcome is
`inheritedTypeString`; otherwise the member line is emitted. -/
def createTypeField (f : FieldDescriptor) : Except GenError String :=
  if (pbSchemaTypescriptMap f.type).isSome = true ∨ f.type ∈ objectPrototypeKeys then
    match pbSchemaTypescriptMap f.type with
    | some (.const ts) => .ok (memberLine f ts)
    | some (.fromOptions g) =>
      match f.options with
      | none => .error .typeError
      | some opts => .ok (memberLine f (g opts))
    | none =>
      match inheritedTypeString f.type f.options with
      | .error e => .error e
      | .ok ts => .ok (memberLine f ts)
  else
    .error (.unknownFieldType f.type)

/-- The `schema.forEach` loop of `createRecordType`: concatenate the member
lines in field order, propagating the first thrown error. -/
def renderFields : List FieldDescriptor → Except GenError String
  | [] => .ok ""
  | f :: fs =>
    match createTypeField f with
    | .error e => .error e
    | .ok line =>
      match renderFields fs with
      | .error e => .error e
      | .ok rest => .ok (line ++ rest)

/-- `createRecordType(name, schema)`. -/
def createRecordType (name : String) (schema : List FieldDescriptor) :
    Except GenError String :=
  match renderFields schema with
  | .error e => .error e
  | .ok body => .ok ("export type " ++ toPascalCase name ++ "Record = \x7b\n" ++ body ++ "\x7d")

/-- `createCollectionEnum(collectionNames)`. -/
def createCollectionEnum (collectionNames : List String) : String :=
  "export enum Collections \x7b\n"
    ++ String.join (collectionNames.map
        (fun n => "\t" ++ toPascalCase n ++ " = \"" ++ n ++ "\",\n"))
    ++ "\x7d"

/-- `createCollectionRecord(collectionNames)`. -/
def createCollectionRecord (collectionNames : List String) : String :=
  "export type CollectionRecords = \x7b\n"
    ++ String.join (collectionNames.map
        (fun n => "\t" ++ n ++ ": " ++ toPascalCase n ++ "Record\n"))
    ++ "\x7d"

/-- The UTF-16 code units of a character (one unit below `0x10000`, a
surrogate pair above). -/
def utf16Units (c : Char) : List Nat :=
  if c.toNat < 65536 then [c.toNat]
  else [55296 + (c.toNat - 65536) / 1024, 56320 + (c.toNat - 65536) % 1024]

/-- Lexicographic order on code-unit sequences. -/
def unitsLe : List Nat → List Nat → Bool
  | [], _ => true
  | _ :: _, [] => false
  | a :: as, b :: bs =>
    if a < b then true
    else if b < a then false
    else unitsLe as bs

/-- The UTF-16 code-unit sequence of a string. -/
def stringUnits (s : String) : List Nat := (s.data.map utf16Units).flatten

/-- ECMA-262 string comparison, as used by `Array.prototype.sort()` with the
default comparator: lexicographic on UTF-16 code units. -/
def jsStrLe (a b : String) : Bool := unitsLe (stringUnits a) (stringUnits b)

/-- `jsStrLe` as a relation. -/
def jsLe (a b : String) : Prop := jsStrLe a b = true

instance : DecidableRel jsLe := fun a b => by unfold jsLe; infer_instance

/-- `Array.prototype.sort()` on strings.  The code-unit order is
antisymmetric (UTF-16 encoding is injective), so every sorting algorithm
returns the same list; we use insertion sort. -/
def sortJS (l : List String) : List String := List.insertionSort jsLe l

/-- The name-collection half of the `results.forEach` loop in `generate`:
`if (row.name) collectionNames.push(row.name)` (the empty string is falsy). -/
def collectNames (results : List CollectionDescriptor) : List String :=
  results.filterMap (fun r => if r.name = "" then none else some r.name)

/-- The record-type half of the `results.forEach` loop in `generate`:
`if (row.schema) recordTypes.push(createRecordType(row.name, row.schema))`
(a present array, even an empty one, is truthy). -/
def renderRecordTypes : List CollectionDescriptor → Except GenError (List String)
  | [] => .ok []
  | r :: rs =>
    match r.schema with
    | none => renderRecordTypes rs
    | some s =>
      match createRecordType r.name s with
      | .error e => .error e
      | .ok t =>
        match renderRecordTypes rs with
        | .error e => .error e
        | .ok ts => .ok (t :: ts)

/-- The fixed header comment emitted first. -/
def generatedFileHeader : String := "// This file was @generated using pocketbase-typegen"

/-- `generate(results)`: gather names and record types, sort both, and join
header, enum, record types and the collection record with blank lines. -/
def generate (results : List CollectionDescriptor) : Except GenError String :=
  match renderRecordTypes results with
  | .error e => .error e
  | .ok recordTypes =>
    let sortedCollectionNames := sortJS (collectNames results)
    .ok (String.intercalate "\n\n"
      (generatedFileHeader
        :: createCollectionEnum sortedCollectionNames
        :: (sortJS recordTypes ++ [createCollectionRecord sortedCollectionNames])))

/-- Decidable equality for generation results, so that concrete runs of the
generator can be checked by `decide`. -/
instance {ε α : Type} [DecidableEq ε] [DecidableEq α] : DecidableEq (Except ε α) := fun a b =>
  match a, b with
  | .ok x, .ok y =>
    if h : x = y then .isTrue (by rw [h]) else .isFalse (by intro hc; cases hc; exact h rfl)
  | .ok _, .error _ => .isFalse (by intro hc; cases hc)
  | .error _, .ok _ => .isFalse (by intro hc; cases hc)
  | .error x, .error y =>
    if h : x = y then .isTrue (by rw [h]) else .isFalse (by intro hc; cases hc; exact h rfl)

/-- The order the spec's words describe for the collection enumeration:
"lexicographic (locale-independent code-point) order".  Declared for
comparison with the code's `jsStrLe` (UTF-16 code-unit order); the two
differ on strings mixing characters of the basic plane above the surrogate
range with astral-plane characters. -/
def codePointLe (a b : String) : Bool :=
  unitsLe (a.data.map Char.toNat) (b.data.map Char.toNat)

end PBTypegen

namespace PBTypegen

set_option maxRecDepth 100000

/-! ## The sort order used by `generate` -/

/-- `unitsLe` is total. -/
def unitsLe_total (as bs : List Nat) : unitsLe as bs = true ∨ unitsLe bs as = true := by
  induction as generalizing bs with
  | nil => left; rfl
  | cons a as ih =>
    cases bs with
    | nil => right; rfl
    | cons b bs =>
      rcases Nat.lt_trichotomy a b with hab | hab | hab
      · left; simp [unitsLe, hab]
      · subst hab
        rcases ih bs with h | h
        · left; simp [unitsLe, lt_self_iff_false, h]
        · right; simp [unitsLe, lt_self_iff_false, h]
      · right; simp [unitsLe, hab]

/-- `unitsLe` is transitive. -/
def unitsLe_trans (as bs cs : List Nat) (h1 : unitsLe as bs = true)
    (h2 : unitsLe bs cs = true) : unitsLe as cs = true := by
  induction as generalizing bs cs with
  | nil => rfl
  | cons a as ih =>
    cases bs with
    | nil => simp [unitsLe] at h1
    | cons b bs =>
      cases cs with
      | nil => simp [unitsLe] at h2
      | cons c cs =>
        simp only [unitsLe] at h1 h2 ⊢
        rcases Nat.lt_trichotomy a b with hab | hab | hab
        · rcases Nat.lt_trichotomy b c with hbc | hbc | hbc
          · simp [Nat.lt_trans hab hbc]
          · subst hbc; simp [hab]
          · rw [if_neg (Nat.lt_asymm hbc), if_pos hbc] at h2; cases h2
        · subst hab
          rcases Nat.lt_trichotomy a c with hbc | hbc | hbc
          · simp [hbc]
          · subst hbc
            simp only [lt_self_iff_false, if_false] at h1 h2 ⊢
            exact ih bs cs h1 h2
          · rw [if_neg (Nat.lt_asymm hbc), if_pos hbc] at h2; cases h2
        · rw [if_neg (Nat.lt_asymm hab), if_pos hab] at h1; cases h1

instance : IsTotal String jsLe :=
  ⟨fun a b => unitsLe_total (stringUnits a) (stringUnits b)⟩

instance : IsTrans String jsLe :=
  ⟨fun _ _ _ h1 h2 => unitsLe_trans _ _ _ h1 h2⟩


/-! ## Claim C1: the `select` rendering -/

/-- The concrete field of claim C5 / spec §8, reused by several theorems. -/
def statusField : FieldDescriptor :=
  { name := "status", type := "select", required := true, options := some { values := some ["open", "closed"] } }

/-- Evaluation of `createTypeField` on an own constant entry. -/
theorem createTypeField_const (f : FieldDescriptor) (ts : String)
    (hm : pbSchemaTypescriptMap f.type = some (.const ts)) :
    createTypeField f = .ok (memberLine f ts) := by
  unfold createTypeField
  rw [if_pos (Or.inl (by rw [hm]; rfl)), hm]

/-- Evaluation of `createTypeField` on an own functional entry. -/
theorem createTypeField_fromOptions (f : FieldDescriptor) (g : FieldOptions → String)
    (hm : pbSchemaTypescriptMap f.type = some (.fromOptions g)) :
    createTypeField f
      = match f.options with
        | none => .error .typeError
        | some opts => .ok (memberLine f (g opts)) := by
  unfold createTypeField
  rw [if_pos (Or.inl (by rw [hm]; rfl)), hm]

/-- Evaluation of `createTypeField` on an inherited `Object.prototype`
member name. -/
theorem createTypeField_inherited (f : FieldDescriptor)
    (hm : pbSchemaTypescriptMap f.type = none) (hp : f.type ∈ objectPrototypeKeys) :
    createTypeField f
      = match inheritedTypeString f.type f.options with
        | .error e => .error e
        | .ok ts => .ok (memberLine f ts) := by
  unfold createTypeField
  rw [if_pos (Or.inr hp), hm]

/-- Evaluation of `createTypeField` when the `in` check fails: the type is
neither an own key nor an inherited member name, and the unknown-type error
is thrown. -/
theorem createTypeField_not_in_map (f : FieldDescriptor)
    (hm : pbSchemaTypescriptMap f.type = none) (hp : f.type ∉ objectPrototypeKeys) :
    createTypeField f = .error (.unknownFieldType f.type) := by
  have hc : ¬((pbSchemaTypescriptMap f.type).isSome = true ∨ f.type ∈ objectPrototypeKeys) := by
    rintro (hs | hp2)
    · rw [hm] at hs
      simp at hs
    · exact hp hp2
  unfold createTypeField
  rw [if_neg hc]

/-- C1 fails as stated: for a `select` field whose `options.values` is
present but empty, the code renders the empty string (an empty JavaScript
array is truthy, so the join branch is taken), not `string` as the claim
demands for "every other case". -/
theorem C1_counterexample :
    selectTypeString { values := some [], maxSelect := none } = ""
      ∧ selectTypeString { values := some [], maxSelect := none } ≠ "string" := by
  constructor
  · decide
  · decide

/-- C1 amended: for every `select` field, the rendered type is the
quoted-literal union of `options.values` in source order whenever
`options.values` is present — for an empty sequence this union is the empty
string — and `string` exactly when `options.values` is absent; the member
line of such a field carries that rendered type. -/
theorem C1_select_rendering :
    (∀ opts : FieldOptions, ∀ vs, opts.values = some vs →
        selectTypeString opts
          = String.intercalate " | " (vs.map (fun v => "\"" ++ v ++ "\"")))
      ∧ (∀ opts : FieldOptions, opts.values = none → selectTypeString opts = "string")
      ∧ (∀ f : FieldDescriptor, ∀ opts, f.type = "select" → f.options = some opts →
          createTypeField f = .ok (memberLine f (selectTypeString opts))) := by
  refine ⟨fun opts vs h => ?_, fun opts h => ?_, fun f opts hf ho => ?_⟩
  · simp [selectTypeString, h]
  · simp [selectTypeString, h]
  · have hm : pbSchemaTypescriptMap f.type = some (.fromOptions selectTypeString) := by
      rw [hf]; rfl
    rw [createTypeField_fromOptions f selectTypeString hm, ho]

/-- Witness for `C1_select_rendering` at the concrete field of §8. -/
theorem C1_select_rendering_witness :
    createTypeField statusField = .ok (memberLine statusField "\"open\" | \"closed\"") :=
  C1_select_rendering.2.2 statusField
    { values := some ["open", "closed"] } rfl rfl

/-! ## Claim C2: `toPascalCase` on separated words -/

/-- C2 fails as stated: `toPascalCase "2fa_codes"` is `"2faCodes"`, not
`"2FaCodes"` — upper-casing the first character of the run `2fa` leaves the
digit `2` unchanged and the following letters are lower-cased, so no
capital `F` appears. -/
theorem C2_counterexample :
    toPascalCase "2fa_codes" = "2faCodes" ∧ toPascalCase "2fa_codes" ≠ "2FaCodes" := by
  constructor
  · decide
  · decide

/-- Unfolding equation of `toPascalCase` on a non-empty string. -/
theorem toPascalCase_cons (c : Char) (cs : List Char) :
    toPascalCase ⟨c :: cs⟩ =
      if (c :: cs).all isWordChar then ⟨c.toUpper :: cs⟩
      else ⟨(camelcaseRuns false (c :: cs)).filter isWordChar⟩ := rfl

/-- C2 amended: `toPascalCase "user_sessions" = "UserSessions"` and
`toPascalCase "2fa_codes" = "2faCodes"`; on input containing a separator,
each maximal letter/digit run has its first character upper-cased (a digit
is unchanged by upper-casing) and the remainder lower-cased, and the
separators are dropped. -/
theorem C2_word_boundaries :
    toPascalCase "user_sessions" = "UserSessions"
      ∧ toPascalCase "2fa_codes" = "2faCodes"
      ∧ (∀ s : String, (∃ c ∈ s.data, isWordChar c = false) →
          toPascalCase s = ⟨(camelcaseRuns false s.data).filter isWordChar⟩) := by
  refine ⟨by decide, by decide, fun s h => ?_⟩
  obtain ⟨c0, hc0, hw0⟩ := h
  obtain ⟨l⟩ := s
  cases l with
  | nil => exact absurd hc0 (List.not_mem_nil c0)
  | cons c cs =>
    have hall : ((c :: cs).all isWordChar) = false := by
      rw [List.all_eq_false]
      exact ⟨c0, hc0, by simp [hw0]⟩
    rw [toPascalCase_cons, hall]
    simp

/-- Witness for `C2_word_boundaries` at `"2fa_codes"` (separator `_`). -/
theorem C2_word_boundaries_witness :
    toPascalCase "2fa_codes" = ⟨(camelcaseRuns false "2fa_codes".data).filter isWordChar⟩ :=
  C2_word_boundaries.2.2 "2fa_codes" ⟨'_', by decide, by decide⟩

/-! ## Claim C5: the member line shape -/

/-- C5 fails as stated: the member line for the §8 `status` field is
`"\tstatus: \"open\" | \"closed\"\n"` — the template of `createTypeField`
starts with a tab character, so the line is not exactly
`status: "open" | "closed"` plus a line terminator. -/
theorem C5_counterexample :
    createTypeField statusField = .ok "\tstatus: \"open\" | \"closed\"\n"
      ∧ createTypeField statusField ≠ .ok "status: \"open\" | \"closed\"\n" := by
  constructor
  · decide
  · decide

/-- C5 amended: every successfully emitted member line is a tab character,
then the sanitized name, then `?` iff `required` is false, then `:` and a
space, then the rendered type expression, then a newline; for the §8
`status` field this is `"\t" ++ "status: \"open\" | \"closed\"" ++ "\n"`. -/
theorem C5_member_line :
    (∀ f : FieldDescriptor, ∀ line, createTypeField f = .ok line →
        ∃ ts, line = "\t" ++ sanitizeFieldName f.name
            ++ (if f.required then "" else "?") ++ ": " ++ ts ++ "\n")
      ∧ createTypeField statusField
          = .ok ("\t" ++ "status: \"open\" | \"closed\"" ++ "\n") := by
  refine ⟨fun f line h => ?_, by decide⟩
  match hm : pbSchemaTypescriptMap f.type with
  | some (.const ts) =>
    rw [createTypeField_const f ts hm] at h
    cases h
    exact ⟨ts, rfl⟩
  | some (.fromOptions g) =>
    match ho : f.options with
    | none =>
      have hv : createTypeField f = .error .typeError := by
        rw [createTypeField_fromOptions f g hm, ho]
      rw [hv] at h
      cases h
    | some opts =>
      have hv : createTypeField f = .ok (memberLine f (g opts)) := by
        rw [createTypeField_fromOptions f g hm, ho]
      rw [hv] at h
      cases h
      exact ⟨g opts, rfl⟩
  | none =>
    by_cases hp : f.type ∈ objectPrototypeKeys
    · match hi : inheritedTypeString f.type f.options with
      | .error e =>
        have hv : createTypeField f = .error e := by
          rw [createTypeField_inherited f hm hp, hi]
        rw [hv] at h
        cases h
      | .ok ts =>
        have hv : createTypeField f = .ok (memberLine f ts) := by
          rw [createTypeField_inherited f hm hp, hi]
        rw [hv] at h
        cases h
        exact ⟨ts, rfl⟩
    · rw [createTypeField_not_in_map f hm hp] at h
      cases h

/-- Witness for `C5_member_line` at the §8 `status` field. -/
theorem C5_member_line_witness :
    ∃ ts, "\tstatus: \"open\" | \"closed\"\n"
        = "\t" ++ sanitizeFieldName statusField.name
            ++ (if statusField.required then "" else "?") ++ ": " ++ ts ++ "\n" :=
  C5_member_line.1 statusField "\tstatus: \"open\" | \"closed\"\n" (by decide)

/-! ## Claim C8: determinism of `generate` -/

/-- C8 confirmed: the generator consults no ambient state (no clock, no
randomness — its embedding is a pure function), so structurally identical
inputs produce byte-identical outputs. -/
theorem C8_deterministic :
    ∀ m₁ m₂ : List CollectionDescriptor, m₁ = m₂ → generate m₁ = generate m₂ :=
  fun _ _ h => congrArg generate h

/-- Witness for `C8_deterministic` at the empty model. -/
theorem C8_deterministic_witness : generate [] = generate [] :=
  C8_deterministic [] [] rfl

/-! ## Claim C9: `toPascalCase` on purely alphanumeric input -/

/-- `camelcaseRuns` keeps a list with no word characters unchanged (every
step takes the separator branch). -/
theorem camelcaseRuns_no_word (b : Bool) (l : List Char)
    (h : ∀ c ∈ l, isWordChar c = false) : camelcaseRuns b l = l := by
  induction l generalizing b with
  | nil => rfl
  | cons c cs ih =>
    have hc : isWordChar c = false := h c (by simp)
    simp [camelcaseRuns, hc]
    exact ih false (fun x hx => h x (by simp [hx]))

/-- C9 confirmed: on a non-empty all-letters/digits string the whole-string
branch fires and only the first character is upper-cased, the rest kept
verbatim (case included); the empty string maps to the empty string; and a
string with no letters/digits at all is erased to the empty string. -/
theorem C9_alphanumeric_identity :
    (∀ (c : Char) (cs : List Char), (c :: cs).all isWordChar = true →
        toPascalCase ⟨c :: cs⟩ = ⟨c.toUpper :: cs⟩)
      ∧ toPascalCase "" = ""
      ∧ (∀ s : String, (∀ c ∈ s.data, isWordChar c = false) → toPascalCase s = "") := by
  refine ⟨fun c cs h => ?_, by decide, fun s h => ?_⟩
  · rw [toPascalCase_cons, if_pos h]
  · obtain ⟨l⟩ := s
    cases l with
    | nil => decide
    | cons c cs =>
      have hc : isWordChar c = false := h c (by simp)
      have hall : ((c :: cs).all isWordChar) = false := by
        rw [List.all_eq_false]
        exact ⟨c, by simp, by simp [hc]⟩
      rw [toPascalCase_cons, hall]
      have hfil : List.filter isWordChar (camelcaseRuns false (c :: cs)) = [] := by
        rw [camelcaseRuns_no_word false (c :: cs) h]
        rw [List.filter_eq_nil_iff]
        intro a ha
        simp [h a ha]
      simp only [Bool.false_eq_true, if_false, hfil]

/-- Witness for `C9_alphanumeric_identity` at `"abc"` and at `"___"`. -/
theorem C9_alphanumeric_identity_witness :
    toPascalCase ⟨'a' :: ['b', 'c']⟩ = ⟨'a'.toUpper :: ['b', 'c']⟩
      ∧ toPascalCase "___" = "" :=
  ⟨C9_alphanumeric_identity.1 'a' ['b', 'c'] (by decide),
   C9_alphanumeric_identity.2.2 "___" (by decide)⟩

/-! ## Claim C10: absent options for `select`/`file` fields -/

/-- Helper: a functional rendering-table entry applied to absent options is
the modelled `TypeError`. -/
theorem createTypeField_fromOptions_none (f : FieldDescriptor) (g : FieldOptions → String)
    (hm : pbSchemaTypescriptMap f.type = some (.fromOptions g)) (ho : f.options = none) :
    createTypeField f = .error .typeError := by
  rw [createTypeField_fromOptions f g hm, ho]

/-- C10 confirmed: for a `select` or `file` field with no options bag,
`createTypeField` raises the modelled `TypeError` (dereference of an
undefined options value), not a member line and not `UnknownFieldType`;
for every other known field type the renderer succeeds even without
options. -/
theorem C10_absent_options :
    (∀ f : FieldDescriptor, f.type = "select" ∨ f.type = "file" → f.options = none →
        createTypeField f = .error .typeError)
      ∧ (∀ f : FieldDescriptor, f.type ∈ knownFieldTypes → f.type ≠ "select" →
          f.type ≠ "file" → ∃ s, createTypeField f = .ok s) := by
  constructor
  · intro f hsel ho
    rcases hsel with h | h
    · exact createTypeField_fromOptions_none f selectTypeString (by rw [h]; rfl) ho
    · exact createTypeField_fromOptions_none f fileTypeString (by rw [h]; rfl) ho
  · intro f hmem hs hf
    simp only [knownFieldTypes, List.mem_cons, List.not_mem_nil, or_false] at hmem
    rcases hmem with h | h | h | h | h | h | h | h | h | h | h
    all_goals first
      | exact absurd h hs
      | exact absurd h hf
      | exact ⟨_, createTypeField_const f _ (by rw [h]; rfl)⟩

/-- Witness for `C10_absent_options` at a `select` field with no options and
a `text` field with no options. -/
theorem C10_absent_options_witness :
    createTypeField { name := "s", type := "select" } = .error .typeError
      ∧ ∃ s, createTypeField { name := "t", type := "text" } = .ok s :=
  ⟨C10_absent_options.1 { name := "s", type := "select" } (Or.inl rfl) rfl,
   C10_absent_options.2 { name := "t", type := "text" } (by decide) (by decide) (by decide)⟩

/-! ## Equation lemmas for the generator pipeline -/

/-- `renderFields` on a field whose rendering throws. -/
theorem renderFields_cons_error (f : FieldDescriptor) (fs : List FieldDescriptor)
    (e : GenError) (h : createTypeField f = .error e) :
    renderFields (f :: fs) = .error e := by
  unfold renderFields
  rw [h]

/-- `renderFields` on a field whose rendering succeeds. -/
theorem renderFields_cons_ok (f : FieldDescriptor) (fs : List FieldDescriptor)
    (line : String) (h : createTypeField f = .ok line) :
    renderFields (f :: fs)
      = match renderFields fs with
        | .error e => .error e
        | .ok rest => .ok (line ++ rest) := by
  simp only [renderFields]
  rw [h]

/-- `createRecordType` propagates a field error. -/
theorem createRecordType_error (name : String) (s : List FieldDescriptor)
    (e : GenError) (h : renderFields s = .error e) :
    createRecordType name s = .error e := by
  unfold createRecordType
  rw [h]

/-- `createRecordType` on a fully rendered body. -/
theorem createRecordType_ok (name : String) (s : List FieldDescriptor)
    (body : String) (h : renderFields s = .ok body) :
    createRecordType name s
      = .ok ("export type " ++ toPascalCase name ++ "Record = \x7b\n" ++ body ++ "\x7d") := by
  unfold createRecordType
  rw [h]

/-- A collection with absent `schema` contributes nothing to the record
types (the `if (row.schema)` guard of `generate`, where `undefined` is
falsy). -/
theorem renderRecordTypes_cons_none (r : CollectionDescriptor)
    (rs : List CollectionDescriptor) (h : r.schema = none) :
    renderRecordTypes (r :: rs) = renderRecordTypes rs := by
  simp only [renderRecordTypes]
  rw [h]

/-- A collection with a present `schema` array — empty included, since an
empty array is truthy — contributes its record type. -/
theorem renderRecordTypes_cons_some (r : CollectionDescriptor)
    (rs : List CollectionDescriptor) (s : List FieldDescriptor) (h : r.schema = some s) :
    renderRecordTypes (r :: rs)
      = match createRecordType r.name s with
        | .error e => .error e
        | .ok t =>
          match renderRecordTypes rs with
          | .error e => .error e
          | .ok ts => .ok (t :: ts) := by
  simp only [renderRecordTypes]
  rw [h]

/-- The unfolding of `generate`. -/
theorem generate_eq (rs : List CollectionDescriptor) :
    generate rs
      = match renderRecordTypes rs with
        | .error e => .error e
        | .ok recordTypes => .ok (String.intercalate "\n\n"
            (generatedFileHeader
              :: createCollectionEnum (sortJS (collectNames rs))
              :: (sortJS recordTypes ++ [createCollectionRecord (sortJS (collectNames rs))]))) :=
  rfl

/-- A `generate` error comes from the record-type pass. -/
theorem generate_error_inv (rs : List CollectionDescriptor) (e : GenError)
    (h : generate rs = .error e) : renderRecordTypes rs = .error e := by
  match hr : renderRecordTypes rs with
  | .error e2 =>
    have hg : generate rs = .error e2 := by rw [generate_eq, hr]
    rw [hg] at h
    injection h with he
    rw [he]
  | .ok ts =>
    have hg : generate rs = .ok (String.intercalate "\n\n"
        (generatedFileHeader
          :: createCollectionEnum (sortJS (collectNames rs))
          :: (sortJS ts ++ [createCollectionRecord (sortJS (collectNames rs))]))) := by
      rw [generate_eq, hr]
    rw [hg] at h
    cases h

/-! ## Facts about the rendering table -/

/-- A type outside the fixed set has no entry in the rendering table. -/
theorem pbMap_eq_none_of_not_mem (t : String) (h : t ∉ knownFieldTypes) :
    pbSchemaTypescriptMap t = none := by
  simp only [knownFieldTypes, List.mem_cons, List.not_mem_nil, or_false, not_or] at h
  obtain ⟨h1, h2, h3, h4, h5, h6, h7, h8, h9, h10, h11⟩ := h
  unfold pbSchemaTypescriptMap
  rw [if_neg h1, if_neg h2, if_neg h3, if_neg h4, if_neg h5, if_neg h6, if_neg h7,
    if_neg h8, if_neg h9, if_neg h10, if_neg h11]

/-- Every known field type has an entry in the rendering table. -/
theorem pbMap_ne_none_of_mem (t : String) (h : t ∈ knownFieldTypes) :
    pbSchemaTypescriptMap t ≠ none := by
  simp only [knownFieldTypes, List.mem_cons, List.not_mem_nil, or_false] at h
  unfold pbSchemaTypescriptMap
  rcases h with rfl | rfl | rfl | rfl | rfl | rfl | rfl | rfl | rfl | rfl | rfl <;> simp

/-- A field of unknown type throws `unknownFieldType` carrying that type. -/
theorem createTypeField_unknown (f : FieldDescriptor) (h : f.type ∉ knownFieldTypes)
    (hp : f.type ∉ objectPrototypeKeys) :
    createTypeField f = .error (.unknownFieldType f.type) :=
  createTypeField_not_in_map f (pbMap_eq_none_of_not_mem f.type h) hp

/-- A field of known type with options present renders successfully. -/
theorem createTypeField_known_ok (f : FieldDescriptor) (o : FieldOptions)
    (ho : f.options = some o) (h : f.type ∈ knownFieldTypes) :
    ∃ s, createTypeField f = .ok s := by
  match hm : pbSchemaTypescriptMap f.type with
  | none => exact absurd hm (pbMap_ne_none_of_mem f.type h)
  | some (.const ts) => exact ⟨memberLine f ts, createTypeField_const f ts hm⟩
  | some (.fromOptions g) =>
    refine ⟨memberLine f (g o), ?_⟩
    rw [createTypeField_fromOptions f g hm, ho]

/-- A field of known type never throws `unknownFieldType`. -/
theorem createTypeField_no_unknown (f : FieldDescriptor) (h : f.type ∈ knownFieldTypes) :
    ∀ t, createTypeField f ≠ .error (.unknownFieldType t) := by
  intro t hc
  match hm : pbSchemaTypescriptMap f.type with
  | none => exact absurd hm (pbMap_ne_none_of_mem f.type h)
  | some (.const ts) =>
    rw [createTypeField_const f ts hm] at hc
    cases hc
  | some (.fromOptions g) =>
    match ho : f.options with
    | none =>
      have hv : createTypeField f = .error .typeError := by
        rw [createTypeField_fromOptions f g hm, ho]
      rw [hv] at hc
      cases hc
    | some opts =>
      have hv : createTypeField f = .ok (memberLine f (g opts)) := by
        rw [createTypeField_fromOptions f g hm, ho]
      rw [hv] at hc
      cases hc

/-! ## Error propagation through the field loop -/

/-- With every option bag present, a field list containing an unknown type
makes `renderFields` fail with `unknownFieldType`. -/
theorem renderFields_unknown (fs : List FieldDescriptor)
    (hopt : ∀ f ∈ fs, f.options.isSome = true ∧ f.type ∉ objectPrototypeKeys)
    (hunk : ∃ f ∈ fs, f.type ∉ knownFieldTypes) :
    ∃ t, renderFields fs = .error (.unknownFieldType t) := by
  induction fs with
  | nil => obtain ⟨f, hf, _⟩ := hunk; cases hf
  | cons f fs ih =>
    by_cases hk : f.type ∈ knownFieldTypes
    · obtain ⟨o, ho⟩ := Option.isSome_iff_exists.mp (hopt f (by simp)).1
      obtain ⟨line, hl⟩ := createTypeField_known_ok f o ho hk
      have hunk2 : ∃ g ∈ fs, g.type ∉ knownFieldTypes := by
        obtain ⟨g, hg, hgu⟩ := hunk
        rcases List.mem_cons.mp hg with rfl | hg2
        · exact absurd hk hgu
        · exact ⟨g, hg2, hgu⟩
      obtain ⟨t, ht⟩ := ih (fun x hx => hopt x (by simp [hx])) hunk2
      exact ⟨t, by rw [renderFields_cons_ok f fs line hl, ht]⟩
    · exact ⟨f.type, by
        rw [renderFields_cons_error f fs _
          (createTypeField_unknown f hk (hopt f (by simp)).2)]⟩

/-- A field list of known types with options present renders to a body. -/
theorem renderFields_ok (fs : List FieldDescriptor)
    (h : ∀ f ∈ fs, f.options.isSome = true ∧ f.type ∈ knownFieldTypes) :
    ∃ body, renderFields fs = .ok body := by
  induction fs with
  | nil => exact ⟨"", rfl⟩
  | cons f fs ih =>
    obtain ⟨ho, hk⟩ := h f (by simp)
    obtain ⟨o, hoo⟩ := Option.isSome_iff_exists.mp ho
    obtain ⟨line, hl⟩ := createTypeField_known_ok f o hoo hk
    obtain ⟨rest, hr⟩ := ih (fun x hx => h x (by simp [hx]))
    exact ⟨line ++ rest, by rw [renderFields_cons_ok f fs line hl, hr]⟩

/-- A field list of known types never fails with `unknownFieldType`. -/
theorem renderFields_no_unknown (fs : List FieldDescriptor)
    (h : ∀ f ∈ fs, f.type ∈ knownFieldTypes) :
    ∀ t, renderFields fs ≠ .error (.unknownFieldType t) := by
  induction fs with
  | nil => intro t hc; cases hc
  | cons f fs ih =>
    intro t hc
    match hcf : createTypeField f with
    | .error e =>
      rw [renderFields_cons_error f fs e hcf] at hc
      injection hc with he
      rw [he] at hcf
      exact createTypeField_no_unknown f (h f (by simp)) t hcf
    | .ok line =>
      match hr : renderFields fs with
      | .error e =>
        have hv : renderFields (f :: fs) = .error e := by
          rw [renderFields_cons_ok f fs line hcf, hr]
        rw [hv] at hc
        injection hc with he
        rw [he] at hr
        exact ih (fun x hx => h x (by simp [hx])) t hr
      | .ok rest =>
        have hv : renderFields (f :: fs) = .ok (line ++ rest) := by
          rw [renderFields_cons_ok f fs line hcf, hr]
        rw [hv] at hc
        cases hc

/-! ## Error propagation through the collection loop -/

/-- With every option bag present, a model containing a field of unknown
type makes the record-type pass fail with `unknownFieldType`. -/
theorem renderRecordTypes_unknown (rs : List CollectionDescriptor)
    (hopt : ∀ r ∈ rs, ∀ f ∈ r.schema.getD [],
      f.options.isSome = true ∧ f.type ∉ objectPrototypeKeys)
    (hunk : ∃ r ∈ rs, ∃ f ∈ r.schema.getD [], f.type ∉ knownFieldTypes) :
    ∃ t, renderRecordTypes rs = .error (.unknownFieldType t) := by
  induction rs with
  | nil => obtain ⟨r, hr, _⟩ := hunk; cases hr
  | cons r rs ih =>
    have hoptTail : ∀ x ∈ rs, ∀ f ∈ x.schema.getD [],
        f.options.isSome = true ∧ f.type ∉ objectPrototypeKeys :=
      fun x hx => hopt x (by simp [hx])
    match hs : r.schema with
    | none =>
      have hunk2 : ∃ x ∈ rs, ∃ f ∈ x.schema.getD [], f.type ∉ knownFieldTypes := by
        obtain ⟨r2, hr2, f, hf, hfu⟩ := hunk
        rcases List.mem_cons.mp hr2 with rfl | h2
        · rw [hs] at hf; simp at hf
        · exact ⟨r2, h2, f, hf, hfu⟩
      obtain ⟨t, ht⟩ := ih hoptTail hunk2
      exact ⟨t, by rw [renderRecordTypes_cons_none r rs hs, ht]⟩
    | some s =>
      have hoptHead : ∀ f ∈ s, f.options.isSome = true ∧ f.type ∉ objectPrototypeKeys := by
        intro f hf
        exact hopt r (by simp) f (by rw [hs, Option.getD_some]; exact hf)
      by_cases hk : ∃ f ∈ s, f.type ∉ knownFieldTypes
      · obtain ⟨t, ht⟩ := renderFields_unknown s hoptHead hk
        refine ⟨t, ?_⟩
        rw [renderRecordTypes_cons_some r rs s hs, createRecordType_error r.name s _ ht]
      · push_neg at hk
        obtain ⟨body, hb⟩ := renderFields_ok s (fun f hf => ⟨(hoptHead f hf).1, hk f hf⟩)
        have hunk2 : ∃ x ∈ rs, ∃ f ∈ x.schema.getD [], f.type ∉ knownFieldTypes := by
          obtain ⟨r2, hr2, f, hf, hfu⟩ := hunk
          rcases List.mem_cons.mp hr2 with rfl | h2
          · rw [hs, Option.getD_some] at hf
            exact absurd (hk f hf) hfu
          · exact ⟨r2, h2, f, hf, hfu⟩
        obtain ⟨t, ht⟩ := ih hoptTail hunk2
        refine ⟨t, ?_⟩
        rw [renderRecordTypes_cons_some r rs s hs, createRecordType_ok r.name s body hb, ht]

/-- A model whose fields all have known types never fails the record-type
pass with `unknownFieldType`. -/
theorem renderRecordTypes_no_unknown (rs : List CollectionDescriptor)
    (h : ∀ r ∈ rs, ∀ f ∈ r.schema.getD [], f.type ∈ knownFieldTypes) :
    ∀ t, renderRecordTypes rs ≠ .error (.unknownFieldType t) := by
  induction rs with
  | nil => intro t hc; cases hc
  | cons r rs ih =>
    have hTail : ∀ x ∈ rs, ∀ f ∈ x.schema.getD [], f.type ∈ knownFieldTypes :=
      fun x hx => h x (by simp [hx])
    intro t hc
    match hs : r.schema with
    | none =>
      rw [renderRecordTypes_cons_none r rs hs] at hc
      exact ih hTail t hc
    | some s =>
      have hHead : ∀ f ∈ s, f.type ∈ knownFieldTypes := by
        intro f hf
        exact h r (by simp) f (by rw [hs, Option.getD_some]; exact hf)
      match hcr : createRecordType r.name s with
      | .error e =>
        have hv : renderRecordTypes (r :: rs) = .error e := by
          rw [renderRecordTypes_cons_some r rs s hs, hcr]
        rw [hv] at hc
        injection hc with he
        rw [he] at hcr
        have hrf : renderFields s = .error (.unknownFieldType t) := by
          match hrf2 : renderFields s with
          | .error e2 =>
            have h3 : createRecordType r.name s = .error e2 :=
              createRecordType_error r.name s e2 hrf2
            rw [h3] at hcr
            injection hcr with he2
            rw [he2]
          | .ok body =>
            have h3 := createRecordType_ok r.name s body hrf2
            rw [h3] at hcr
            cases hcr
        exact renderFields_no_unknown s hHead t hrf
      | .ok tstr =>
        match hrr : renderRecordTypes rs with
        | .error e =>
          have hv : renderRecordTypes (r :: rs) = .error e := by
            rw [renderRecordTypes_cons_some r rs s hs, hcr, hrr]
          rw [hv] at hc
          injection hc with he
          rw [he] at hrr
          exact ih hTail t hrr
        | .ok ts =>
          have hv : renderRecordTypes (r :: rs) = .ok (tstr :: ts) := by
            rw [renderRecordTypes_cons_some r rs s hs, hcr, hrr]
          rw [hv] at hc
          cases hc

/-! ## Claim C4: unknown field types and generation failure -/

/-- C4 fails as stated: the guard in `createTypeField` is the JavaScript
`in` operator, which consults the prototype chain, so the field type
`toString` — outside the fixed set — passes the check.  The inherited
`Object.prototype.toString` is then called with strict-mode
`this = undefined` and returns `"[object Undefined]"`: generation
*succeeds* and emits a complete document containing the member line
`f: [object Undefined]`, instead of failing with `UnknownFieldType`. -/
theorem C4_counterexample :
    generate [{ name := "c", schema := some [{ name := "f", type := "toString", required := true }] }]
      = .ok ("// This file was @generated using pocketbase-typegen\n\n"
          ++ "export enum Collections \x7b\n\tC = \"c\",\n\x7d\n\n"
          ++ "export type CRecord = \x7b\n\tf: [object Undefined]\n\x7d\n\n"
          ++ "export type CollectionRecords = \x7b\n\tc: CRecord\n\x7d")
      ∧ "toString" ∉ knownFieldTypes :=
  ⟨by decide, by decide⟩

/-- C4 amended: on a schema model in which every field carries its options
bag (the spec's data model, §3, makes `options` a field of every
`FieldDescriptor`; absent bags are C10's subject) and no field's declared
type is an inherited `Object.prototype` member name, a field whose type is
outside the fixed set makes `generate` fail with `unknownFieldType` and
return no document; and whenever every field type is known, the
`unknownFieldType` error is never produced, whatever the options. -/
theorem C4_unknown_type_aborts :
    (∀ rs : List CollectionDescriptor,
        (∀ r ∈ rs, ∀ f ∈ r.schema.getD [],
          f.options.isSome = true ∧ f.type ∉ objectPrototypeKeys) →
        (∃ r ∈ rs, ∃ f ∈ r.schema.getD [], f.type ∉ knownFieldTypes) →
        ∃ t, generate rs = .error (.unknownFieldType t))
      ∧ (∀ rs : List CollectionDescriptor,
          (∀ r ∈ rs, ∀ f ∈ r.schema.getD [], f.type ∈ knownFieldTypes) →
          ∀ t, generate rs ≠ .error (.unknownFieldType t)) := by
  constructor
  · intro rs hopt hunk
    obtain ⟨t, ht⟩ := renderRecordTypes_unknown rs hopt hunk
    exact ⟨t, by rw [generate_eq, ht]⟩
  · intro rs hk t hc
    exact renderRecordTypes_no_unknown rs hk t (generate_error_inv rs _ hc)

/-- Witness for `C4_unknown_type_aborts`: a model whose only field has type
`bogus` fails with `unknownFieldType`, one whose only field has type `text`
never does. -/
theorem C4_unknown_type_aborts_witness :
    (∃ t, generate [{ name := "c", schema := some [{ name := "f", type := "bogus", options := some {} }] }]
        = .error (.unknownFieldType t))
      ∧ ∀ t, generate [{ name := "c", schema := some [{ name := "f", type := "text" }] }]
          ≠ .error (.unknownFieldType t) :=
  ⟨C4_unknown_type_aborts.1 _ (by decide) (by decide),
   C4_unknown_type_aborts.2 _ (by decide)⟩

/-! ## Claim C3: which collections get a record-type block -/

/-- C3 fails as stated: a collection whose field list is *present but
empty* still contributes a record-type declaration (`export type XRecord =
{…}`), because `if (row.schema)` tests truthiness and an empty JavaScript
array is truthy.  The full generated document for such a model is computed
here and visibly contains the `XRecord` block. -/
theorem C3_counterexample :
    generate [{ name := "x", schema := some [] }]
      = .ok ("// This file was @generated using pocketbase-typegen\n\n"
          ++ "export enum Collections \x7b\n\tX = \"x\",\n\x7d\n\n"
          ++ "export type XRecord = \x7b\n\x7d\n\n"
          ++ "export type CollectionRecords = \x7b\n\tx: XRecord\n\x7d") := by
  decide

/-- C3 amended: `generate` renders a record-type block exactly for those
collections whose field list is *present* — an empty field list still
yields a block — while a collection with an absent field list contributes
no record-type declaration. -/
theorem C3_blocks_iff_schema_present :
    (∀ (rs : List CollectionDescriptor) (ts : List String),
        renderRecordTypes rs = .ok ts →
        ts.length = (rs.filter (fun x => x.schema.isSome)).length)
      ∧ (∀ (r : CollectionDescriptor) (rs : List CollectionDescriptor), r.schema = none →
          renderRecordTypes (r :: rs) = renderRecordTypes rs) := by
  constructor
  · intro rs
    induction rs with
    | nil =>
      intro ts h
      cases h
      rfl
    | cons r rs ih =>
      intro ts h
      match hs : r.schema with
      | none =>
        rw [renderRecordTypes_cons_none r rs hs] at h
        have hlist : (r :: rs).filter (fun x => x.schema.isSome)
            = rs.filter (fun x => x.schema.isSome) := by
          simp [List.filter_cons, hs]
        rw [hlist]
        exact ih ts h
      | some s =>
        match hcr : createRecordType r.name s with
        | .error e =>
          have hv : renderRecordTypes (r :: rs) = .error e := by
            rw [renderRecordTypes_cons_some r rs s hs, hcr]
          rw [hv] at h
          cases h
        | .ok t =>
          match hrr : renderRecordTypes rs with
          | .error e =>
            have hv : renderRecordTypes (r :: rs) = .error e := by
              rw [renderRecordTypes_cons_some r rs s hs, hcr, hrr]
            rw [hv] at h
            cases h
          | .ok ts2 =>
            have hv : renderRecordTypes (r :: rs) = .ok (t :: ts2) := by
              rw [renderRecordTypes_cons_some r rs s hs, hcr, hrr]
            rw [hv] at h
            cases h
            have hlist : (r :: rs).filter (fun x => x.schema.isSome)
                = r :: rs.filter (fun x => x.schema.isSome) := by
              simp [List.filter_cons, hs]
            rw [hlist, List.length_cons, List.length_cons, ih ts2 hrr]
  · exact renderRecordTypes_cons_none

/-- Witness for `C3_blocks_iff_schema_present`: one present-but-empty
schema and one absent schema yield exactly one block. -/
theorem C3_blocks_iff_schema_present_witness :
    (["export type XRecord = \x7b\n\x7d"] : List String).length
      = (([{ name := "x", schema := some [] }, { name := "y" }] : List CollectionDescriptor).filter
          (fun x => x.schema.isSome)).length :=
  C3_blocks_iff_schema_present.1
    [{ name := "x", schema := some [] }, { name := "y" }]
    ["export type XRecord = \x7b\n\x7d"] (by decide)

/-! ## Claim C6: the collection enumeration -/

/-- Sorting permutes, so membership is preserved. -/
theorem mem_sortJS (l : List String) (n : String) : n ∈ sortJS l ↔ n ∈ l :=
  (List.perm_insertionSort jsLe l).mem_iff

/-- `collectNames` keeps exactly the non-empty collection names. -/
theorem mem_collectNames (results : List CollectionDescriptor) (n : String) :
    n ∈ collectNames results ↔ (∃ r ∈ results, r.name = n) ∧ n ≠ "" := by
  unfold collectNames
  rw [List.mem_filterMap]
  constructor
  · rintro ⟨r, hr, hsome⟩
    by_cases h : r.name = ""
    · rw [if_pos h] at hsome
      cases hsome
    · rw [if_neg h] at hsome
      cases hsome
      exact ⟨⟨r, hr, rfl⟩, h⟩
  · rintro ⟨⟨r, hr, hn⟩, hne⟩
    subst hn
    exact ⟨r, hr, if_neg hne⟩

/-- C6 fails as stated only in its ordering clause: `Array.sort()` orders
strings by UTF-16 code units, not by code points.  For the two one-character
names U+10000 and U+FFFF the generator emits U+10000 first (its leading
surrogate 0xD800 is below 0xFFFF), although U+FFFF precedes U+10000 in
code-point order. -/
theorem C6_counterexample :
    sortJS (collectNames
        [{ name := ⟨[Char.ofNat 65536]⟩ }, { name := ⟨[Char.ofNat 65535]⟩ }])
        = [⟨[Char.ofNat 65536]⟩, ⟨[Char.ofNat 65535]⟩]
      ∧ codePointLe ⟨[Char.ofNat 65536]⟩ ⟨[Char.ofNat 65535]⟩ = false
      ∧ (⟨[Char.ofNat 65536]⟩ : String) ≠ ⟨[Char.ofNat 65535]⟩ :=
  ⟨by decide, by decide, by decide⟩

/-- C6 amended: the emitted enumeration lists exactly the collections with
non-empty names, ordered by UTF-16 code-unit lexicographic comparison of
the raw collection name (which agrees with code-point order on
basic-plane strings); for a model with collections named `zeta` and
`alpha`, the member `Alpha` appears before `Zeta`. -/
theorem C6_enum_order :
    (∀ (results : List CollectionDescriptor) (n : String),
        n ∈ sortJS (collectNames results) ↔ (∃ r ∈ results, r.name = n) ∧ n ≠ "")
      ∧ (∀ results : List CollectionDescriptor,
          List.Sorted jsLe (sortJS (collectNames results)))
      ∧ createCollectionEnum (sortJS (collectNames [{ name := "zeta" }, { name := "alpha" }]))
          = "export enum Collections \x7b\n\tAlpha = \"alpha\",\n\tZeta = \"zeta\",\n\x7d" := by
  refine ⟨fun results n => ?_, fun results => List.sorted_insertionSort jsLe _, by decide⟩
  rw [mem_sortJS, mem_collectNames]

/-- Witness for `C6_enum_order` at the `[zeta, alpha]` model. -/
theorem C6_enum_order_witness :
    "alpha" ∈ sortJS (collectNames [{ name := "zeta" }, { name := "alpha" }]) :=
  (C6_enum_order.1 [{ name := "zeta" }, { name := "alpha" }] "alpha").mpr
    ⟨⟨{ name := "alpha" }, by decide, rfl⟩, by decide⟩

/-! ## Claim C7: document structure -/

/-- C7 confirmed: every successfully generated document is the blank-line
join of the fixed header, exactly one enumeration declaration, the sorted
record-type blocks and exactly one composite mapping declaration, in that
order; for the empty model the enumeration and the mapping are empty but
still emitted. -/
theorem C7_document_structure :
    (∀ (rs : List CollectionDescriptor) (doc : String), generate rs = .ok doc →
        ∃ blocks, doc = String.intercalate "\n\n"
          (generatedFileHeader
            :: createCollectionEnum (sortJS (collectNames rs))
            :: (blocks ++ [createCollectionRecord (sortJS (collectNames rs))])))
      ∧ generate [] = .ok (generatedFileHeader
          ++ "\n\nexport enum Collections \x7b\n\x7d\n\nexport type CollectionRecords = \x7b\n\x7d") := by
  constructor
  · intro rs doc h
    match hr : renderRecordTypes rs with
    | .error e =>
      have hg : generate rs = .error e := by rw [generate_eq, hr]
      rw [hg] at h
      cases h
    | .ok ts =>
      have hg : generate rs = .ok (String.intercalate "\n\n"
          (generatedFileHeader
            :: createCollectionEnum (sortJS (collectNames rs))
            :: (sortJS ts ++ [createCollectionRecord (sortJS (collectNames rs))]))) := by
        rw [generate_eq, hr]
      rw [hg] at h
      injection h with he
      exact ⟨sortJS ts, he.symm⟩
  · decide

/-- Witness for `C7_document_structure` at a one-collection model. -/
theorem C7_document_structure_witness :
    ∃ blocks, "// This file was @generated using pocketbase-typegen\n\n"
          ++ "export enum Collections \x7b\n\tX = \"x\",\n\x7d\n\n"
          ++ "export type XRecord = \x7b\n\x7d\n\n"
          ++ "export type CollectionRecords = \x7b\n\tx: XRecord\n\x7d"
        = String.intercalate "\n\n"
          (generatedFileHeader
            :: createCollectionEnum (sortJS (collectNames [{ name := "x", schema := some [] }]))
            :: (blocks ++ [createCollectionRecord
                  (sortJS (collectNames [{ name := "x", schema := some [] }]))])) :=
  C7_document_structure.1 [{ name := "x", schema := some [] }] _ (by decide)

end PBTypegen
